import Mathlib

/-!
Shallow embedding of the CampusTT authorization core
(`src/app/middleware/rbac_middleware.py`, `security_middleware.py`,
`tenant_middleware.py`, `auth_middleware.py`,
`src/app/services/auth_service.py`, `audit_service.py`)
together with proofs checking the specification's claims against it.
-/

namespace CampusTT

/-- Python string truthiness for an optional string: `None` and `""` are falsy. -/
def strTruthy : Option String → Bool
  | none => false
  | some s => !s.isEmpty

/-! ### rbac_middleware.py -/

namespace Rbac

/-- `ROLE_HIERARCHY.get(role, 0)` from `rbac_middleware.py`.
The module-level dict has entries for SUPER_ADMIN, COLLEGE_ADMIN, FACULTY
and STUDENT only; every other key (including `"STAFF"`) falls to the
`.get` default `0`. -/
def roleHierarchy (role : String) : Nat :=
  if role = "SUPER_ADMIN" then 100
  else if role = "COLLEGE_ADMIN" then 50
  else if role = "FACULTY" then 10
  else if role = "STUDENT" then 1
  else 0

/-- The `ROLE_PERMISSIONS` dict from `rbac_middleware.py`, as an association
list role ↦ (resource ↦ actions), entries in source order. -/
def ROLE_PERMISSIONS : List (String × List (String × List String)) :=
  [ ("SUPER_ADMIN",
      [ ("colleges", ["create", "read", "update", "delete", "approve", "suspend"]),
        ("users", ["create", "read", "update", "delete", "deactivate"]),
        ("faculty", ["create", "read", "update", "delete"]),
        ("students", ["create", "read", "update", "delete"]),
        ("schedules", ["create", "read", "update", "delete"]),
        ("results", ["create", "read", "update", "delete", "upload"]),
        ("classes", ["create", "read", "update", "delete"]),
        ("qna", ["read", "approve", "admin"]),
        ("analytics", ["read_all", "export"]),
        ("audit", ["read_all"]) ]),
    ("COLLEGE_ADMIN",
      [ ("colleges", ["read_own"]),
        ("users", ["create", "read", "update"]),
        ("faculty", ["create", "read", "update", "delete"]),
        ("students", ["create", "read", "update", "delete"]),
        ("schedules", ["create", "read", "update", "delete"]),
        ("results", ["create", "read", "update", "delete", "upload"]),
        ("classes", ["create", "read", "update", "delete"]),
        ("qna", ["read", "approve"]),
        ("analytics", ["read_own", "export_own"]),
        ("audit", ["read_own"]) ]),
    ("FACULTY",
      [ ("colleges", []),
        ("users", ["read_own"]),
        ("faculty", ["read_own", "update_own"]),
        ("students", ["read_assigned"]),
        ("schedules", ["read_assigned"]),
        ("results", ["read_assigned"]),
        ("classes", ["read_assigned"]),
        ("qna", ["read", "respond"]),
        ("analytics", []),
        ("audit", []) ]),
    ("STUDENT",
      [ ("colleges", []),
        ("users", ["read_own", "update_own"]),
        ("faculty", ["read_public"]),
        ("students", ["read_own"]),
        ("schedules", ["read_own"]),
        ("results", ["read_own"]),
        ("classes", ["read_own"]),
        ("qna", ["read"]),
        ("analytics", []),
        ("audit", []) ]) ]

/-- `has_permission(role, resource, action)` from `rbac_middleware.py`:
`role in ROLE_PERMISSIONS` and `action in ROLE_PERMISSIONS[role].get(resource, [])`. -/
def has_permission (role resource action : String) : Bool :=
  match ROLE_PERMISSIONS.lookup role with
  | none => false
  | some perms => ((perms.lookup resource).getD []).contains action

/-- `has_higher_or_equal_role` from `rbac_middleware.py`. -/
def has_higher_or_equal_role (user_role target_role : String) : Bool :=
  roleHierarchy user_role ≥ roleHierarchy target_role

/-- `can_manage_role` from `rbac_middleware.py`: strict rank dominance. -/
def can_manage_role (user_role target_role : String) : Bool :=
  roleHierarchy user_role > roleHierarchy target_role

/-- `validate_role_change` from `rbac_middleware.py`. Returning `True` is
modelled as `.ok true`; raising `RoleEscalationException(msg)` as `.error msg`. -/
def validate_role_change (user_role current_role new_role : String) :
    Except String Bool :=
  if user_role = "SUPER_ADMIN" then .ok true
  else if !can_manage_role user_role current_role then
    .error ("Cannot modify user with role " ++ current_role)
  else if !can_manage_role user_role new_role then
    .error ("Cannot assign role " ++ new_role)
  else .ok true

end Rbac

/-- A role-change validator's decision: `true` = allowed, `false` = the call
raised `RoleEscalationException`. -/
def allowed (e : Except String Bool) : Bool :=
  match e with
  | .ok _ => true
  | .error _ => false

/-! ### security_middleware.py -/

namespace Security

/-- The inline `ROLE_HIERARCHY` of `validate_role_change` in
`security_middleware.py` (`.get(role, 0)`); unlike the rbac module's table
it contains a `STAFF` entry with level 5. -/
def roleHierarchy (role : String) : Nat :=
  if role = "SUPER_ADMIN" then 100
  else if role = "COLLEGE_ADMIN" then 50
  else if role = "FACULTY" then 10
  else if role = "STAFF" then 5
  else if role = "STUDENT" then 1
  else 0

/-- `validate_role_change` from `security_middleware.py`. Returning `True` is
modelled as `.ok true`; raising `RoleEscalationException(msg)` as `.error msg`. -/
def validate_role_change (current_role target_current_role new_role : String) :
    Except String Bool :=
  let current_level := roleHierarchy current_role
  let target_level := roleHierarchy target_current_role
  let new_level := roleHierarchy new_role
  if current_role = "SUPER_ADMIN" then .ok true
  else if target_level ≥ current_level then
    .error "Cannot modify role of user at or above your permission level"
  else if new_level ≥ current_level then
    .error "Cannot assign role with equal or higher privileges"
  else .ok true

end Security

/-! ### tenant_middleware.py -/

/-- The `g.current_user` dict set by `require_auth` in `auth_middleware.py`:
`user_id` is always present (`payload['sub']`), the other claims are read
with `.get` and may be absent. -/
structure CurrentUser where
  user_id : String
  email : Option String
  college_id : Option String
  role : Option String
deriving DecidableEq, Repr

/-- The `g.tenant_context` dict built by `require_tenant_access`. -/
structure TenantContext where
  college_id : Option String
  is_super_admin : Bool
  can_write : Bool
deriving DecidableEq, Repr

/-- Outcome of `require_tenant_access`: falling through to the wrapped route
(`granted`), raising `ForbiddenException`, or raising `TenantAccessException`
(HTTP error code `TENANT_ACCESS_DENIED`). -/
inductive TenantOutcome where
  | forbidden (message : String)
  | tenantDenied (message : String)
  | granted (ctx : TenantContext)
deriving DecidableEq, Repr

/-- A call into `AuditService` (action type and severity of the record it
would write). -/
structure AuditCall where
  action_type : String
  severity : String
deriving DecidableEq, Repr

/-- Observable effects of one `require_tenant_access` evaluation: its outcome,
the `current_app.logger.warning` lines it emits, and the `AuditService`
calls it makes. -/
structure TenantResult where
  outcome : TenantOutcome
  warnings : List String
  auditWrites : List AuditCall
deriving DecidableEq, Repr

/-- `require_tenant_access` from `tenant_middleware.py`, with the requested
college id already resolved (see `get_requested_college_id`).  The source
emits `logger.warning` lines on its two denial branches and never calls
`AuditService` on any path. -/
def require_tenant_access (user : Option CurrentUser)
    (requested_college_id : Option String) : TenantResult :=
  match user with
  | none => ⟨.forbidden "Authentication required", [], []⟩
  | some u =>
    if u.role = some "SUPER_ADMIN" then
      ⟨.granted ⟨requested_college_id, true, false⟩, [], []⟩
    else if strTruthy u.college_id = false then
      ⟨.tenantDenied "Account not associated with any college",
       ["User " ++ u.user_id ++ " has no college_id but is not SUPER_ADMIN"], []⟩
    else if strTruthy requested_college_id = true ∧ requested_college_id ≠ u.college_id then
      ⟨.tenantDenied "Access to this college data is not permitted",
       ["Cross-tenant access attempt: User " ++ u.user_id], []⟩
    else
      ⟨.granted ⟨u.college_id, false, true⟩, [], []⟩

/-- The places `_get_requested_college_id` inspects on the request. -/
structure RequestData where
  header_tenant_id : Option String
  view_args_college_id : Option String
  query_college_id : Option String
  json_body_college_id : Option String
deriving DecidableEq, Repr

/-- `_get_requested_college_id` from `tenant_middleware.py`: `X-Tenant-ID`
header (truthy), then `college_id` path parameter (present, no truthiness
check), then query parameter (truthy), then JSON body field (present). -/
def get_requested_college_id (req : RequestData) : Option String :=
  if strTruthy req.header_tenant_id = true then req.header_tenant_id
  else
    match req.view_args_college_id with
    | some v => some v
    | none =>
      if strTruthy req.query_college_id = true then req.query_college_id
      else req.json_body_college_id

/-! ### auth_service.py / auth_middleware.py -/

/-- The claims of an access token built by `AuthService._create_access_token`:
`sub`, `email`, `college_id`, `role`, `iat`, `exp`, all present.  Times are
modelled as natural numbers (seconds). -/
structure AccessPayload where
  sub : String
  email : String
  college_id : String
  role : String
  iat : Nat
  exp : Nat
deriving DecidableEq, Repr

/-- A compact signed token.  The HMAC-SHA256 signature over the payload with
the shared secret is abstracted as the key the token was signed with;
verification succeeds exactly when it matches the verifier's secret. -/
structure SignedToken where
  payload : AccessPayload
  sigKey : String
deriving DecidableEq, Repr

/-- The `user_data` dict passed to `AuthService._create_access_token`. -/
structure UserData where
  user_id : String
  email : String
  college_id : Option String
  role : String
deriving DecidableEq, Repr

/-- `AuthService._create_access_token`: builds the payload
`{sub, email, college_id (or ''), role, iat=now, exp=now+ttl}` and signs it
with the configured secret. -/
def create_access_token (secret : String) (now ttl : Nat) (u : UserData) :
    SignedToken :=
  { payload :=
      { sub := u.user_id
        email := u.email
        college_id := (u.college_id.getD "")
        role := u.role
        iat := now
        exp := now + ttl }
    sigKey := secret }

/-- Typed authentication failures of `require_auth`. -/
inductive AuthFailure where
  | tokenExpired
  | invalidToken
deriving DecidableEq, Repr

/-- `_verify_token` in `auth_middleware.py`: `jwt.decode` with the shared
secret, HS256, and required claims `sub`, `exp`, `iat` (always present in
an `AccessPayload`).  A wrong signature is `InvalidTokenError`; a token at
or past its expiry is `ExpiredSignatureError`. -/
def verify_token (secret : String) (now : Nat) (tok : SignedToken) :
    Except AuthFailure AccessPayload :=
  if tok.sigKey ≠ secret then .error .invalidToken
  else if tok.payload.exp ≤ now then .error .tokenExpired
  else .ok tok.payload

/-- `require_auth` in `auth_middleware.py`: verifies the token and maps the
payload onto the `g.current_user` principal (`user_id = sub`, the other
claims via `.get`; an `AuthService` access token carries no `permissions`
claim). -/
def authenticate (secret : String) (now : Nat) (tok : SignedToken) :
    Except AuthFailure CurrentUser :=
  (verify_token secret now tok).map fun p =>
    { user_id := p.sub
      email := some p.email
      college_id := some p.college_id
      role := some p.role }

/-! ### audit_service.py -/

/-- One row of the `audit_logs` table as written by `AuditService.log`
(`created_at` modelled as a natural-number timestamp; ISO strings compare
chronologically). -/
structure AuditRecord where
  college_id : Option String
  user_id : Option String
  user_email : Option String
  user_role : Option String
  action_type : String
  entity_type : String
  entity_id : Option String
  entity_name : Option String
  old_value : Option String
  new_value : Option String
  change_summary : Option String
  severity : String
  created_at : Nat
deriving DecidableEq, Repr

/-- The `_get_user_context` dict in `AuditService`: the current user, or a
dict of `None`s when there is no authenticated user. -/
structure UserContext where
  user_id : Option String
  email : Option String
  college_id : Option String
  role : Option String
deriving DecidableEq, Repr

namespace AuditService

/-- Failure injection for the SQLite steps of `AuditService.log`:
`connect_raises` makes `self._get_connection()` raise (e.g. the database
file cannot be opened), `insert_raises` makes the `INSERT`/`commit` raise. -/
structure DbFailure where
  connect_raises : Bool
  insert_raises : Bool
deriving DecidableEq, Repr

/-- `AuditService.log`, with the audit table as explicit state.  The source
calls `self._get_connection()` BEFORE its `try` block, so a connection
failure propagates to the caller (`.error`); a failure inside the `try`
(the `INSERT` or `commit`) is caught, rolled back and reported as
`.ok false`; on success the row is appended and `True` is returned. -/
def log (beh : DbFailure) (db : List AuditRecord) (rec : AuditRecord) :
    Except String (Bool × List AuditRecord) :=
  if beh.connect_raises then
    .error "sqlite3.OperationalError: unable to open database file"
  else if beh.insert_raises then
    .ok (false, db)
  else
    .ok (true, db ++ [rec])

/-- SQL equality against a possibly-NULL column and a possibly-None
parameter: `col = ?` is never true when either side is NULL. -/
def sqlEq : Option String → Option String → Bool
  | some a, some b => a == b
  | _, _ => false

/-- The optional filters of `AuditService.get_logs` (dates as natural-number
timestamps). -/
structure LogFilters where
  action_filter : Option String
  entity_filter : Option String
  severity_filter : Option String
  from_date : Option Nat
  to_date : Option Nat
deriving DecidableEq, Repr

/-- Calling `get_logs` with every filter at its `None` default. -/
def noFilters : LogFilters := ⟨none, none, none, none, none⟩

/-- The WHERE clause `get_logs` builds: the implicit
`college_id = caller's college` conjunct added for COLLEGE_ADMIN callers,
then each truthy optional filter. -/
def logMatches (user : UserContext) (f : LogFilters) (rec : AuditRecord) : Bool :=
  (if user.role = some "COLLEGE_ADMIN" then sqlEq rec.college_id user.college_id else true)
  && (if strTruthy f.action_filter = true then some rec.action_type == f.action_filter else true)
  && (if strTruthy f.entity_filter = true then some rec.entity_type == f.entity_filter else true)
  && (if strTruthy f.severity_filter = true then some rec.severity == f.severity_filter else true)
  && (match f.from_date with | some d => decide (d ≤ rec.created_at) | none => true)
  && (match f.to_date with | some d => decide (rec.created_at ≤ d) | none => true)

/-- `AuditService.get_logs` over an explicit table: FACULTY/STAFF/STUDENT are
denied before any query; a missing role is `UNAUTHORIZED`; otherwise the
rows matching the built WHERE clause are returned (the `ORDER BY`/`LIMIT`
presentation of the page is not modelled). -/
def get_logs (user : UserContext) (f : LogFilters) (db : List AuditRecord) :
    Except String (List AuditRecord) :=
  if user.role = some "FACULTY" ∨ user.role = some "STAFF"
      ∨ user.role = some "STUDENT" then
    .error "ACCESS_DENIED"
  else if strTruthy user.role = false then
    .error "UNAUTHORIZED"
  else
    .ok (db.filter (logMatches user f))

/-- `AuditService.get_login_history` over an explicit table: only
FACULTY/STAFF/STUDENT callers are restricted to their own `user_id`; the
query then selects that user's LOGIN/LOGIN_FAILED/LOGOUT rows with no
college condition (the `ORDER BY`/`LIMIT` presentation is not modelled). -/
def get_login_history (user : UserContext) (target_user_id : String)
    (db : List AuditRecord) : Except String (List AuditRecord) :=
  if (user.role = some "FACULTY" ∨ user.role = some "STAFF"
      ∨ user.role = some "STUDENT")
      ∧ user.user_id ≠ some target_user_id then
    .error "ACCESS_DENIED"
  else
    .ok (db.filter fun rec =>
      rec.user_id == some target_user_id
      && (rec.action_type == "LOGIN" || rec.action_type == "LOGIN_FAILED"
          || rec.action_type == "LOGOUT"))

end AuditService

/-! ### Concrete values used by the claim checks -/

/-- Spec-side characterization of the SUPER_ADMIN row of the permission
table, written as a function resource ↦ actions, to be compared with the
lookup-based `has_permission` of the source. -/
def super_admin_actions (resource : String) : List String :=
  if resource = "colleges" then ["create", "read", "update", "delete", "approve", "suspend"]
  else if resource = "users" then ["create", "read", "update", "delete", "deactivate"]
  else if resource = "faculty" then ["create", "read", "update", "delete"]
  else if resource = "students" then ["create", "read", "update", "delete"]
  else if resource = "schedules" then ["create", "read", "update", "delete"]
  else if resource = "results" then ["create", "read", "update", "delete", "upload"]
  else if resource = "classes" then ["create", "read", "update", "delete"]
  else if resource = "qna" then ["read", "approve", "admin"]
  else if resource = "analytics" then ["read_all", "export"]
  else if resource = "audit" then ["read_all"]
  else []

/-- The principal of Scenario B: a COLLEGE_ADMIN of tenant T1. -/
def c2User : CurrentUser :=
  { user_id := "u1", email := some "a@b.com", college_id := some "T1",
    role := some "COLLEGE_ADMIN" }

/-- A concrete audit row used to evaluate the audit operations. -/
def sampleAudit : AuditRecord :=
  { college_id := some "c1", user_id := some "u1", user_email := some "a@b.com",
    user_role := some "COLLEGE_ADMIN", action_type := "CREATE", entity_type := "user",
    entity_id := some "u2", entity_name := none, old_value := none,
    new_value := some "x", change_summary := some "created user", severity := "INFO",
    created_at := 10 }

/-- A concrete COLLEGE_ADMIN caller of tenant c1. -/
def c9Admin : UserContext :=
  { user_id := some "a1", email := some "adm@b.com", college_id := some "c1",
    role := some "COLLEGE_ADMIN" }

/-- A concrete STUDENT caller. -/
def c9Student : UserContext :=
  { user_id := some "s1", email := some "stu@b.com", college_id := some "T1",
    role := some "STUDENT" }

/-- A login row belonging to tenant T2, used to show the login-history read
path applies no tenant filter. -/
def crossTenantLogin : AuditRecord :=
  { college_id := some "T2", user_id := some "u9", user_email := some "u9@b.com",
    user_role := some "FACULTY", action_type := "LOGIN", entity_type := "session",
    entity_id := some "u9", entity_name := none, old_value := none, new_value := none,
    change_summary := some "User logged in successfully", severity := "INFO",
    created_at := 5 }


/-! ## Helper lemmas -/

lemma strTruthy_some {s : String} (h : s ≠ "") : strTruthy (some s) = true := by
  cases hs : s.isEmpty with
  | false => simp [strTruthy, hs]
  | true => exact ((h ((String.isEmpty_iff s).mp hs)).elim)

lemma sqlEq_eq {a b : Option String} (h : AuditService.sqlEq a b = true) : a = b := by
  cases a <;> cases b <;> simp_all [AuditService.sqlEq]

lemma rank_agree_of_ne_staff (r : String) (h : r ≠ "STAFF") :
    Rbac.roleHierarchy r = Security.roleHierarchy r := by
  simp only [Rbac.roleHierarchy, Security.roleHierarchy]
  split_ifs <;> simp_all

lemma logMatches_college {user : UserContext} {f : AuditService.LogFilters}
    {rec : AuditRecord} (hrole : user.role = some "COLLEGE_ADMIN")
    (h : AuditService.logMatches user f rec = true) :
    AuditService.sqlEq rec.college_id user.college_id = true := by
  simp only [AuditService.logMatches, hrole, Bool.and_eq_true] at h
  simpa using h.1.1.1.1.1

/-! ## C1 -/

/-- C1 counterexample: the claim that `has_permission(SUPER_ADMIN, resource,
action)` is true for every resource and action is false; for the resource
`branding` (absent from the table) it returns false. -/
theorem c1_super_admin_bypass_cex :
    ¬ (∀ resource action : String,
        Rbac.has_permission "SUPER_ADMIN" resource action = true) := by
  intro h
  exact absurd (h "branding" "read") (by decide)

/-- C1 (amended): `has_permission(SUPER_ADMIN, resource, action)` is true
exactly when the action is listed for the resource in the permission
table's SUPER_ADMIN row — table membership, not a bypass. -/
theorem c1_super_admin_table_membership (resource action : String) :
    Rbac.has_permission "SUPER_ADMIN" resource action = true ↔
      action ∈ super_admin_actions resource := by
  simp only [Rbac.has_permission, Rbac.ROLE_PERMISSIONS, super_admin_actions]
  split_ifs <;>
    simp_all [List.lookup_cons, List.lookup, List.contains, List.elem_iff, beq_eq_decide]

/-! ## C2 -/

/-- C2 counterexample: for the Scenario B principal (COLLEGE_ADMIN of T1
requesting T2), `require_tenant_access` does deny with
`TenantAccessException`, but no audit record with a cross-tenant action
type and WARNING severity is written through the audit recorder — the
audit-call list of the evaluation is empty. -/
theorem c2_cross_tenant_no_audit_cex :
    (require_tenant_access (some c2User) (some "T2")).outcome
        = .tenantDenied "Access to this college data is not permitted"
    ∧ ¬ ∃ call ∈ (require_tenant_access (some c2User) (some "T2")).auditWrites,
          call.action_type = "CROSS_TENANT_VIOLATION" ∧ call.severity = "WARNING" := by
  refine ⟨rfl, ?_⟩
  rintro ⟨call, hmem, -⟩
  rw [show (require_tenant_access (some c2User) (some "T2")).auditWrites = [] from rfl] at hmem
  exact absurd hmem (List.not_mem_nil call)

/-- C2 (amended): for every non-super-admin principal with a non-empty own
tenant and every non-empty requested tenant differing from it,
`require_tenant_access` fails with the cross-tenant denial
(`TenantAccessException`, error code `TENANT_ACCESS_DENIED`) and emits one
application warning log line; no record is written through the audit
recorder on this path. -/
theorem c2_cross_tenant_denied_no_audit (u : CurrentUser) (c t : String)
    (hrole : u.role ≠ some "SUPER_ADMIN") (hcol : u.college_id = some c)
    (hc : c ≠ "") (ht : t ≠ "") (hne : t ≠ c) :
    (require_tenant_access (some u) (some t)).outcome
        = .tenantDenied "Access to this college data is not permitted"
    ∧ (require_tenant_access (some u) (some t)).warnings
        = ["Cross-tenant access attempt: User " ++ u.user_id]
    ∧ (require_tenant_access (some u) (some t)).auditWrites = [] := by
  refine ⟨?_, ?_, ?_⟩ <;>
    simp [require_tenant_access, hrole, hcol, strTruthy_some hc, strTruthy_some ht, hne]

/-- C2 witness: the amended theorem applied to the Scenario B principal. -/
theorem c2_witness :
    ((c2User.role ≠ some "SUPER_ADMIN") ∧ c2User.college_id = some "T1"
      ∧ "T1" ≠ "" ∧ "T2" ≠ "" ∧ "T2" ≠ "T1")
    ∧ (require_tenant_access (some c2User) (some "T2")).warnings
        = ["Cross-tenant access attempt: User u1"]
    ∧ (require_tenant_access (some c2User) (some "T2")).auditWrites = [] :=
  ⟨⟨by decide, rfl, by decide, by decide, by decide⟩,
   (c2_cross_tenant_denied_no_audit c2User "T1" "T2" (by decide) rfl
      (by decide) (by decide) (by decide)).2.1,
   (c2_cross_tenant_denied_no_audit c2User "T1" "T2" (by decide) rfl
      (by decide) (by decide) (by decide)).2.2⟩

/-! ## C3 -/

/-- C3: for every SUPER_ADMIN principal and every requested tenant id
(including none), `require_tenant_access` succeeds and returns a tenant
context with effective tenant = requested tenant, `is_super_admin = true`
and `can_write = false`, with no warnings and no audit writes. -/
theorem c3_super_admin_tenant_context (u : CurrentUser)
    (requested : Option String) (hrole : u.role = some "SUPER_ADMIN") :
    require_tenant_access (some u) requested
      = ⟨.granted ⟨requested, true, false⟩, [], []⟩ := by
  simp [require_tenant_access, hrole]

/-- C3 witness: a concrete SUPER_ADMIN principal requesting tenant T9. -/
theorem c3_witness :
    require_tenant_access
        (some { user_id := "s1", email := some "root@x", college_id := none,
                role := some "SUPER_ADMIN" }) (some "T9")
      = ⟨.granted ⟨some "T9", true, false⟩, [], []⟩ :=
  c3_super_admin_tenant_context _ (some "T9") rfl

/-! ## C4 -/

/-- C4 counterexample: the rank function of `rbac_middleware.py` maps
`STAFF` to 0, not to the claimed 5. -/
theorem c4_staff_rank_cex :
    Rbac.roleHierarchy "STAFF" = 0 ∧ Rbac.roleHierarchy "STAFF" ≠ 5 := by decide

/-- C4 (amended): the rbac module's rank function maps SUPER_ADMIN,
COLLEGE_ADMIN, FACULTY, STUDENT to 100, 50, 10, 1, and every other role
string — including STAFF — ranks as 0 and permits nothing; only the inline
hierarchy of `security_middleware.validate_role_change` ranks STAFF as 5
(with the other four as in the claim). -/
theorem c4_role_hierarchy_amended :
    (Rbac.roleHierarchy "SUPER_ADMIN" = 100 ∧ Rbac.roleHierarchy "COLLEGE_ADMIN" = 50
      ∧ Rbac.roleHierarchy "FACULTY" = 10 ∧ Rbac.roleHierarchy "STUDENT" = 1)
    ∧ (∀ r : String,
        r ∉ (["SUPER_ADMIN", "COLLEGE_ADMIN", "FACULTY", "STUDENT"] : List String) →
        Rbac.roleHierarchy r = 0
          ∧ ∀ resource action : String, Rbac.has_permission r resource action = false)
    ∧ (Security.roleHierarchy "STAFF" = 5 ∧ Security.roleHierarchy "SUPER_ADMIN" = 100
      ∧ Security.roleHierarchy "COLLEGE_ADMIN" = 50 ∧ Security.roleHierarchy "FACULTY" = 10
      ∧ Security.roleHierarchy "STUDENT" = 1) := by
  refine ⟨by decide, ?_, by decide⟩
  intro r hr
  simp only [List.mem_cons, List.not_mem_nil, or_false, not_or] at hr
  obtain ⟨h1, h2, h3, h4⟩ := hr
  refine ⟨by simp [Rbac.roleHierarchy, h1, h2, h3, h4], ?_⟩
  intro resource action
  simp [Rbac.has_permission, Rbac.ROLE_PERMISSIONS, List.lookup, beq_eq_decide,
    h1, h2, h3, h4]

/-- C4 witness: the amended theorem instantiated at the role `STAFF` and
the pair (users, read). -/
theorem c4_witness :
    Rbac.roleHierarchy "STAFF" = 0
    ∧ Rbac.has_permission "STAFF" "users" "read" = false :=
  ⟨(c4_role_hierarchy_amended.2.1 "STAFF" (by decide)).1,
   (c4_role_hierarchy_amended.2.1 "STAFF" (by decide)).2 "users" "read"⟩

/-! ## C5 -/

/-- C5: role-change validation in `rbac_middleware.py`: a SUPER_ADMIN actor
is always allowed; otherwise the change is allowed iff the actor's rank
strictly exceeds both the target's current rank and the requested new
rank, and denials raise `RoleEscalationException`; in particular the three
concrete cases of the claim hold. -/
theorem c5_role_change_validation :
    (∀ c n : String, Rbac.validate_role_change "SUPER_ADMIN" c n = .ok true)
    ∧ (∀ a c n : String, a ≠ "SUPER_ADMIN" →
        (allowed (Rbac.validate_role_change a c n) = true ↔
          Rbac.roleHierarchy a > Rbac.roleHierarchy c
            ∧ Rbac.roleHierarchy a > Rbac.roleHierarchy n))
    ∧ Rbac.validate_role_change "COLLEGE_ADMIN" "FACULTY" "COLLEGE_ADMIN"
        = .error "Cannot assign role COLLEGE_ADMIN"
    ∧ Rbac.validate_role_change "COLLEGE_ADMIN" "COLLEGE_ADMIN" "FACULTY"
        = .error "Cannot modify user with role COLLEGE_ADMIN"
    ∧ Rbac.validate_role_change "SUPER_ADMIN" "COLLEGE_ADMIN" "SUPER_ADMIN" = .ok true := by
  refine ⟨fun c n => rfl, ?_, rfl, rfl, rfl⟩
  intro a c n ha
  simp only [Rbac.validate_role_change, Rbac.can_manage_role, if_neg ha]
  split_ifs <;> simp_all [allowed]

/-- C5 witness: the non-super-admin characterization instantiated at
(COLLEGE_ADMIN, FACULTY, STUDENT). -/
theorem c5_witness :
    ("COLLEGE_ADMIN" : String) ≠ "SUPER_ADMIN"
    ∧ (allowed (Rbac.validate_role_change "COLLEGE_ADMIN" "FACULTY" "STUDENT") = true ↔
        Rbac.roleHierarchy "COLLEGE_ADMIN" > Rbac.roleHierarchy "FACULTY"
          ∧ Rbac.roleHierarchy "COLLEGE_ADMIN" > Rbac.roleHierarchy "STUDENT") :=
  ⟨by decide, c5_role_change_validation.2.1 "COLLEGE_ADMIN" "FACULTY" "STUDENT" (by decide)⟩

/-! ## C6 -/

/-- C6 counterexample: the two role-change validators disagree on the
triple (STAFF, STUDENT, STUDENT): the rbac validator denies it (STAFF
ranks 0 there) while the security-middleware validator allows it (STAFF
ranks 5 there). -/
theorem c6_validators_disagree_cex :
    allowed (Rbac.validate_role_change "STAFF" "STUDENT" "STUDENT") = false
    ∧ allowed (Security.validate_role_change "STAFF" "STUDENT" "STUDENT") = true
    ∧ ¬ (∀ a c n : String,
          allowed (Rbac.validate_role_change a c n)
            = allowed (Security.validate_role_change a c n)) := by
  refine ⟨rfl, rfl, ?_⟩
  intro h
  exact absurd (h "STAFF" "STUDENT" "STUDENT") (by decide)

/-- C6 (amended): the two role-change validators return the same
allow/deny decision for every triple of role strings in which none of the
three roles is `STAFF` (including unknown role strings). -/
theorem c6_validators_agree_without_staff (a c n : String)
    (ha : a ≠ "STAFF") (hc : c ≠ "STAFF") (hn : n ≠ "STAFF") :
    allowed (Rbac.validate_role_change a c n)
      = allowed (Security.validate_role_change a c n) := by
  have Ha := rank_agree_of_ne_staff a ha
  have Hc := rank_agree_of_ne_staff c hc
  have Hn := rank_agree_of_ne_staff n hn
  simp only [Rbac.validate_role_change, Security.validate_role_change,
    Rbac.can_manage_role, Ha, Hc, Hn]
  split_ifs <;> simp_all [allowed]

/-- C6 witness: the amended agreement instantiated at
(COLLEGE_ADMIN, FACULTY, STUDENT). -/
theorem c6_witness :
    allowed (Rbac.validate_role_change "COLLEGE_ADMIN" "FACULTY" "STUDENT")
      = allowed (Security.validate_role_change "COLLEGE_ADMIN" "FACULTY" "STUDENT") :=
  c6_validators_agree_without_staff "COLLEGE_ADMIN" "FACULTY" "STUDENT"
    (by decide) (by decide) (by decide)

/-! ## C7 -/

/-- C7: issuing an access token for a principal with non-empty subject,
email, role and tenant id and authenticating it with the same secret at
any time before expiry recovers the same subject, role and tenant. -/
theorem c7_token_round_trip (secret : String) (u : UserData) (c : String)
    (_hsub : u.user_id ≠ "") (_hemail : u.email ≠ "") (_hrole : u.role ≠ "")
    (hcol : u.college_id = some c) (_hc : c ≠ "")
    (now t ttl : Nat) (_httl : 0 < ttl) (ht : t < now + ttl) :
    authenticate secret t (create_access_token secret now ttl u)
      = .ok { user_id := u.user_id, email := some u.email,
              college_id := some c, role := some u.role } := by
  have hexp : ¬ (now + ttl ≤ t) := by omega
  simp [authenticate, verify_token, create_access_token, Except.map, hcol, hexp]

/-- C7 witness (Scenario D): issuing for u1 / a@b.com / c1 /
COLLEGE_ADMIN with ttl = 3600 s and authenticating immediately yields a
principal with tenant c1 and role COLLEGE_ADMIN. -/
theorem c7_witness :
    authenticate "jwt-secret" 0
        (create_access_token "jwt-secret" 0 3600
          { user_id := "u1", email := "a@b.com", college_id := some "c1",
            role := "COLLEGE_ADMIN" })
      = .ok { user_id := "u1", email := some "a@b.com", college_id := some "c1",
              role := some "COLLEGE_ADMIN" } :=
  c7_token_round_trip "jwt-secret" _ "c1" (by decide) (by decide) (by decide) rfl
    (by decide) 0 0 3600 (by decide) (by decide)

/-! ## C8 -/

/-- C8 (code bug demonstration): `AuditService.log` opens its SQLite
connection before the `try` block, so a connection failure raises past the
boundary instead of returning false; failures inside the `try` are caught
and reported as false, and the success path appends the row and returns
true. -/
theorem c8_audit_log_boundary :
    AuditService.log ⟨true, false⟩ [] sampleAudit
        = .error "sqlite3.OperationalError: unable to open database file"
    ∧ AuditService.log ⟨false, true⟩ [] sampleAudit = .ok (false, [])
    ∧ AuditService.log ⟨false, false⟩ [] sampleAudit = .ok (true, [sampleAudit]) :=
  ⟨rfl, rfl, rfl⟩

/-! ## C9 -/

/-- C9: `AuditService.get_logs` denies FACULTY, STAFF and STUDENT callers
outright regardless of filters; every record returned to a COLLEGE_ADMIN
caller carries the caller's own tenant id regardless of requested filters;
and a SUPER_ADMIN caller with no filters receives the whole table. -/
theorem c9_audit_query_access :
    (∀ (user : UserContext) (f : AuditService.LogFilters) (db : List AuditRecord),
        (user.role = some "FACULTY" ∨ user.role = some "STAFF"
          ∨ user.role = some "STUDENT") →
        AuditService.get_logs user f db = .error "ACCESS_DENIED")
    ∧ (∀ (user : UserContext) (f : AuditService.LogFilters) (db out : List AuditRecord)
          (rec : AuditRecord),
        user.role = some "COLLEGE_ADMIN" →
        AuditService.get_logs user f db = .ok out → rec ∈ out →
        rec.college_id = user.college_id)
    ∧ (∀ (user : UserContext) (db : List AuditRecord),
        user.role = some "SUPER_ADMIN" →
        AuditService.get_logs user AuditService.noFilters db = .ok db) := by
  refine ⟨?_, ?_, ?_⟩
  · intro user f db hrole
    simp [AuditService.get_logs, hrole]
  · intro user f db out rec hrole hok hmem
    have hT : strTruthy (some "COLLEGE_ADMIN") = true := by decide
    have hout : out = db.filter (AuditService.logMatches user f) := by
      simp [AuditService.get_logs, hrole, hT] at hok
      exact hok.symm
    rw [hout] at hmem
    exact sqlEq_eq (logMatches_college hrole (List.of_mem_filter hmem))
  · intro user db hrole
    have hT : strTruthy (some "SUPER_ADMIN") = true := by decide
    have hall : ∀ rec ∈ db,
        AuditService.logMatches user AuditService.noFilters rec = true := by
      intro rec _
      simp [AuditService.logMatches, AuditService.noFilters, strTruthy, hrole]
    simp [AuditService.get_logs, hrole, hT, List.filter_eq_self.mpr hall]

/-- C9 witness: each part of the audit-query theorem applied at concrete
callers and a one-row table. -/
theorem c9_witness :
    AuditService.get_logs c9Student AuditService.noFilters [sampleAudit]
        = .error "ACCESS_DENIED"
    ∧ sampleAudit.college_id = c9Admin.college_id
    ∧ AuditService.get_logs
        { user_id := some "root", email := some "root@x", college_id := none,
          role := some "SUPER_ADMIN" } AuditService.noFilters [sampleAudit]
        = .ok [sampleAudit] :=
  ⟨c9_audit_query_access.1 c9Student AuditService.noFilters [sampleAudit]
      (Or.inr (Or.inr rfl)),
   c9_audit_query_access.2.1 c9Admin AuditService.noFilters [sampleAudit] [sampleAudit]
      sampleAudit rfl (by rfl) (by simp),
   c9_audit_query_access.2.2 _ [sampleAudit] rfl⟩

/-! ## C10 -/

/-- C10: `AuditService.get_login_history` restricts only FACULTY, STAFF
and STUDENT callers to their own user id; any caller with another role
string obtains exactly the LOGIN / LOGIN_FAILED / LOGOUT rows of an
arbitrary user id with no tenant condition, so a COLLEGE_ADMIN of tenant
c1 reads the login row of a tenant-T2 user. -/
theorem c10_login_history_access :
    (∀ (user : UserContext) (target : String) (db : List AuditRecord) (r : String),
        user.role = some r →
        r ∉ (["FACULTY", "STAFF", "STUDENT"] : List String) →
        ∃ out, AuditService.get_login_history user target db = .ok out
          ∧ ∀ rec, rec ∈ out ↔ rec ∈ db ∧ rec.user_id = some target
              ∧ (rec.action_type = "LOGIN" ∨ rec.action_type = "LOGIN_FAILED"
                  ∨ rec.action_type = "LOGOUT"))
    ∧ (∀ (user : UserContext) (target : String) (db : List AuditRecord),
        (user.role = some "FACULTY" ∨ user.role = some "STAFF"
          ∨ user.role = some "STUDENT") →
        user.user_id ≠ some target →
        AuditService.get_login_history user target db = .error "ACCESS_DENIED")
    ∧ (∀ (user : UserContext) (target : String) (db : List AuditRecord),
        user.user_id = some target →
        (AuditService.get_login_history user target db).isOk = true)
    ∧ AuditService.get_login_history c9Admin "u9" [crossTenantLogin]
        = .ok [crossTenantLogin] := by
  refine ⟨?_, ?_, ?_, by rfl⟩
  · intro user target db r hrole hr
    simp only [List.mem_cons, List.not_mem_nil, or_false, not_or] at hr
    obtain ⟨h1, h2, h3⟩ := hr
    refine ⟨db.filter (fun rec =>
        rec.user_id == some target
        && (rec.action_type == "LOGIN" || rec.action_type == "LOGIN_FAILED"
            || rec.action_type == "LOGOUT")), ?_, ?_⟩
    · simp [AuditService.get_login_history, hrole, h1, h2, h3]
    · intro rec
      simp [List.mem_filter, and_assoc, or_assoc]
  · intro user target db hrole hid
    simp [AuditService.get_login_history, hrole, hid]
  · intro user target db hid
    simp [AuditService.get_login_history, hid, Except.isOk, Except.toBool]

/-- C10 witness: the unrestricted-read part applied to a COLLEGE_ADMIN
caller and a login row belonging to another tenant. -/
theorem c10_witness :
    ∃ out, AuditService.get_login_history c9Admin "u9" [crossTenantLogin] = .ok out
      ∧ ∀ rec, rec ∈ out ↔ rec ∈ [crossTenantLogin] ∧ rec.user_id = some "u9"
          ∧ (rec.action_type = "LOGIN" ∨ rec.action_type = "LOGIN_FAILED"
              ∨ rec.action_type = "LOGOUT") :=
  c10_login_history_access.1 c9Admin "u9" [crossTenantLogin] "COLLEGE_ADMIN" rfl (by decide)

end CampusTT
